import Mathlib

/-!
Verification of bevy_peacock's selector/style/transition core.

Shallow embedding of:
* crates/bevy_peacock_style/src/selector.rs (Selector AST, depth, uses_hover,
  uses_focus_within, Display, FromStr)
* crates/bevy_peacock_style/src/selector_parser.rs (winnow selector grammar)
* crates/bevy_peacock_style/src/style_parser.rs (property value grammar and
  coercions)
* crates/bevy_peacock_style/src/transition.rs and src/animate.rs (transition
  state machine)
* src/selector_matcher.rs (selector matching against a tree)

Machine floats (f32) are modelled as rationals; all concrete inputs used in
the theorems are exactly representable, and none of the modelled operations
on them round.  winnow combinator semantics are modelled faithfully,
including the std-range convention that `m..n` allows at most `n-1`
repetitions, and the fact that a bare tuple parser does not restore its
input on failure (only `alt`/`opt`/`repeat`/`separated` checkpoint).
-/

namespace Peacock

/-- winnow AsChar::is_alpha: ASCII alphabetic. -/
def isAlphaChar (c : Char) : Bool :=
  (97 ≤ c.toNat && c.toNat ≤ 122) || (65 ≤ c.toNat && c.toNat ≤ 90)

/-- winnow AsChar::is_alphanum: ASCII alphanumeric. -/
def isAlphaNumChar (c : Char) : Bool :=
  isAlphaChar c || (48 ≤ c.toNat && c.toNat ≤ 57)

/-- winnow AsChar::is_hex_digit. -/
def isHexDigitChar (c : Char) : Bool :=
  (48 ≤ c.toNat && c.toNat ≤ 57) || (97 ≤ c.toNat && c.toNat ≤ 102) ||
    (65 ≤ c.toNat && c.toNat ≤ 70)

/-- The character class of `class_name`'s tail: alphanumeric, `-` or `_`. -/
def isClassTailChar (c : Char) : Bool :=
  isAlphaNumChar c || c = '-' || c = '_'

/-- The character class of `prop_name`/`ident` tails: alphanumeric or `_`. -/
def isIdentTailChar (c : Char) : Bool :=
  isAlphaNumChar c || c = '_'

/-- winnow ascii::space0 / space1 character class (space and tab). -/
def isSpaceTab (c : Char) : Bool :=
  c = ' ' || c = '\t'

/-- winnow ascii::multispace0 character class. -/
def isMultispace (c : Char) : Bool :=
  c = ' ' || c = '\t' || c = '\n' || c = '\r'

/-- Rust `char::is_whitespace`, restricted to the ASCII whitespace characters
(the only ones that can occur in the inputs considered here). -/
def rustIsWhitespace (c : Char) : Bool :=
  c = ' ' || c = '\t' || c = '\n' || c = '\r' || c = '\x0b' || c = '\x0c'

/-- Rust `str::trim` on a character list. -/
def trimChars (input : List Char) : List Char :=
  ((input.dropWhile rustIsWhitespace).reverse.dropWhile rustIsWhitespace).reverse

/-- Split off the longest matching run, like winnow take_while(0.., pred). -/
def takeWhileSplit (p : Char → Bool) : List Char → List Char × List Char
  | [] => ([], [])
  | c :: rest =>
    if p c then
      let (taken, left) := takeWhileSplit p rest
      (c :: taken, left)
    else ([], c :: rest)

/-- Literal tag parser: strip an expected character sequence from the front. -/
def stripTag : List Char → List Char → Option (List Char)
  | [], input => some input
  | _ :: _, [] => none
  | c :: cs, d :: ds => if c = d then stripTag cs ds else none

/-! ## The Selector AST (selector.rs) -/

/-- The selector AST from selector.rs.  `cls` is Rust's `Selector::Class`
(Lean reserves the name).  Boxes are elided; `either` holds the list of
alternate chains. -/
inductive Selector where
  | accept
  | cls (name : String) (next : Selector)
  | hover (next : Selector)
  | focus (next : Selector)
  | focusWithin (next : Selector)
  | focusVisible (next : Selector)
  | firstChild (next : Selector)
  | lastChild (next : Selector)
  | current (next : Selector)
  | parent (next : Selector)
  | either (opts : List Selector)

mutual

/-- `Selector::depth` from selector.rs: note the `Accept => 1` base case. -/
def Selector.depth : Selector → Nat
  | .accept => 1
  | .cls _ next => next.depth
  | .hover next => next.depth
  | .focus next => next.depth
  | .focusWithin next => next.depth
  | .focusVisible next => next.depth
  | .firstChild next => next.depth
  | .lastChild next => next.depth
  | .current next => next.depth
  | .parent next => next.depth + 1
  | .either opts => Selector.depthMax opts

/-- `opts.iter().map(|next| next.depth()).max().unwrap_or(0)`: the maximum of
the branch depths, 0 for an empty list. -/
def Selector.depthMax : List Selector → Nat
  | [] => 0
  | s :: rest => Nat.max s.depth (Selector.depthMax rest)

end

mutual

/-- `Selector::uses_hover` from selector.rs. -/
def Selector.uses_hover : Selector → Bool
  | .accept => false
  | .cls _ next => next.uses_hover
  | .hover _ => true
  | .focus next => next.uses_hover
  | .focusWithin next => next.uses_hover
  | .focusVisible next => next.uses_hover
  | .firstChild next => next.uses_hover
  | .lastChild next => next.uses_hover
  | .current next => next.uses_hover
  | .parent next => next.uses_hover
  | .either opts => Selector.usesHoverAny opts

/-- `opts.iter().map(|next| next.uses_hover()).max().unwrap_or(false)`: the
maximum of booleans is their disjunction, false for an empty list. -/
def Selector.usesHoverAny : List Selector → Bool
  | [] => false
  | s :: rest => s.uses_hover || Selector.usesHoverAny rest

end

/-- `Selector::uses_focus_within` from selector.rs, exactly as written: every
recursive case invokes `uses_hover` on the tail (as does the `Either` arm),
only an outermost `FocusWithin` yields `true` directly. -/
def Selector.uses_focus_within : Selector → Bool
  | .accept => false
  | .cls _ next => next.uses_hover
  | .focusWithin _ => true
  | .hover next => next.uses_hover
  | .focus next => next.uses_hover
  | .focusVisible next => next.uses_hover
  | .firstChild next => next.uses_hover
  | .lastChild next => next.uses_hover
  | .current next => next.uses_hover
  | .parent next => next.uses_hover
  | .either opts => Selector.usesHoverAny opts

/-- Discriminator used by the `Parent` display arm. -/
def Selector.isParent : Selector → Bool
  | .parent _ => true
  | _ => false

/-- The `Selector::Current` display arm's while-loop: walk the chain while
it is a `Class`, accumulating `.name` fragments in reverse; returns the
accumulated fragments and the first non-`Class` tail. -/
def currentChainText : Selector → String → String × Selector
  | .cls name desc, str => currentChainText desc ("." ++ name ++ str)
  | p, str => (str, p)

mutual

/-- `impl fmt::Display for Selector` from selector.rs, with an explicit
recursion-depth fuel so that the definition is structurally recursive (and
kernel-evaluable); any fuel of at least the term's size is enough, and
`Selector.toText` below supplies it. -/
def toTextF : Nat → Selector → String
  | 0, _ => ""
  | fuel + 1, s =>
    match s with
    | .accept => ""
    | .current prev =>
      let (str, p) := currentChainText prev ""
      toTextF fuel p ++ "&" ++ str
    | .cls name prev => toTextF fuel prev ++ "." ++ name
    | .hover prev => toTextF fuel prev ++ ":hover"
    | .focus prev => toTextF fuel prev ++ ":focus"
    | .focusWithin prev => toTextF fuel prev ++ ":focus-within"
    | .focusVisible prev => toTextF fuel prev ++ ":focus-visible"
    | .firstChild prev => toTextF fuel prev ++ ":first-child"
    | .lastChild prev => toTextF fuel prev ++ ":last-child"
    | .parent prev => toTextF fuel prev ++ (if prev.isParent then "* > " else " > ")
    | .either items => eitherTextF fuel items true

/-- The `Selector::Either` display arm: items joined by a comma-space. -/
def eitherTextF : Nat → List Selector → Bool → String
  | 0, _, _ => ""
  | _ + 1, [], _ => ""
  | fuel + 1, s :: rest, first =>
    (if first then "" else ", ") ++ toTextF fuel s ++ eitherTextF fuel rest false

end

mutual

/-- An executable size measure for selectors, used as display fuel. -/
def selSize : Selector → Nat
  | .accept => 1
  | .cls _ next => selSize next + 1
  | .hover next => selSize next + 1
  | .focus next => selSize next + 1
  | .focusWithin next => selSize next + 1
  | .focusVisible next => selSize next + 1
  | .firstChild next => selSize next + 1
  | .lastChild next => selSize next + 1
  | .current next => selSize next + 1
  | .parent next => selSize next + 1
  | .either opts => selSizeList opts + 1

def selSizeList : List Selector → Nat
  | [] => 0
  | s :: rest => selSize s + selSizeList rest + 1

end

/-- `Selector::to_string()`: the Display rendering, with adequate fuel. -/
def Selector.toText (s : Selector) : String :=
  toTextF (selSize s + 1) s

/-! ## The selector grammar (selector_parser.rs) -/

/-- `SelectorToken` from selector_parser.rs. -/
inductive SelectorToken where
  | classTok (name : String)
  | hoverTok
  | firstChildTok
  | lastChildTok
  | focusTok
  | focusWithinTok
  | focusVisibleTok

/-- `class_name`: a `.`, one ASCII alphabetic character, then any number of
alphanumeric, `-` or `_` characters; yields the name without the dot. -/
def parseClassName : List Char → Option (String × List Char)
  | '.' :: c :: rest =>
    if isAlphaChar c then
      let (taken, left) := takeWhileSplit isClassTailChar rest
      some (String.mk (c :: taken), left)
    else none
  | _ => none

/-- One iteration of the token alternation in `simple_selector`, in source
order: class_name, hover, first_child, last_child, focus, focus_within,
focus_visible.  (Because `:focus` precedes `:focus-within` and
`:focus-visible` and is a prefix of both, the latter two alternatives can
never match.) -/
def parseSelToken (input : List Char) : Option (SelectorToken × List Char) :=
  match parseClassName input with
  | some (n, r) => some (.classTok n, r)
  | none =>
    match stripTag ":hover".data input with
    | some r => some (.hoverTok, r)
    | none =>
      match stripTag ":first-child".data input with
      | some r => some (.firstChildTok, r)
      | none =>
        match stripTag ":last-child".data input with
        | some r => some (.lastChildTok, r)
        | none =>
          match stripTag ":focus".data input with
          | some r => some (.focusTok, r)
          | none =>
            match stripTag ":focus-within".data input with
            | some r => some (.focusWithinTok, r)
            | none =>
              match stripTag ":focus-visible".data input with
              | some r => some (.focusVisibleTok, r)
              | none => none

/-- `repeat(0.., token)`.  Fuel is the input length; every token consumes at
least one character, so the fuel never runs out before the repeat stops. -/
def parseSelTokens : Nat → List Char → List SelectorToken × List Char
  | 0, input => ([], input)
  | fuel + 1, input =>
    match parseSelToken input with
    | some (t, rest) =>
      let (ts, left) := parseSelTokens fuel rest
      (t :: ts, left)
    | none => ([], input)

/-- `simple_selector`: an optional `*` or `&` marker followed by the token
repeat. -/
def parseSimpleSel (input : List Char) :
    Option Char × List SelectorToken × List Char :=
  let (mark, r0) :=
    match input with
    | '*' :: rest => (some '*', rest)
    | '&' :: rest => (some '&', rest)
    | _ => ((none : Option Char), input)
  let (toks, r1) := parseSelTokens (r0.length + 1) r0
  (mark, toks, r1)

/-- The token-wrapping loop shared by `combo_selector` and `desc_selector`. -/
def applySelToken (sel : Selector) : SelectorToken → Selector
  | .classTok n => .cls n sel
  | .hoverTok => .hover sel
  | .firstChildTok => .firstChild sel
  | .lastChildTok => .lastChild sel
  | .focusTok => .focus sel
  | .focusWithinTok => .focusWithin sel
  | .focusVisibleTok => .focusVisible sel

def applySelTokens (sel : Selector) (toks : List SelectorToken) : Selector :=
  toks.foldl applySelToken sel

/-- The `&` marker wraps the segment in `Current`; `*` (or no marker) adds
nothing. -/
def applyMark (mark : Option Char) (sel : Selector) : Selector :=
  if mark = some '&' then .current sel else sel

/-- `combo_selector`: always succeeds (both parts are optional). -/
def parseComboSel (input : List Char) : Selector × List Char :=
  let (mark, toks, rest) := parseSimpleSel input
  (applyMark mark (applySelTokens .accept toks), rest)

/-- The `parent` parser `(space0, '>', space0)`, as attempted by
`desc_selector`'s bare `while parent.parse_next(input).is_ok()` loop: a
tuple parser does not restore input on failure, so the leading spaces stay
consumed even when no `>` follows. -/
def parentAttempt (input : List Char) : Bool × List Char :=
  let r1 := input.dropWhile isSpaceTab
  match r1 with
  | '>' :: rest => (true, rest.dropWhile isSpaceTab)
  | _ => (false, r1)

/-- The `>`-combinator loop of `desc_selector`.  Fuel is the input length;
each successful iteration consumes the `>`. -/
def parseDescLoop : Nat → Selector → List Char → Selector × List Char
  | 0, sel, input => (sel, input)
  | fuel + 1, sel, input =>
    match parentAttempt input with
    | (true, rest) =>
      let (mark, toks, rest2) := parseSimpleSel rest
      parseDescLoop fuel (applyMark mark (applySelTokens (.parent sel) toks)) rest2
    | (false, rest) => (sel, rest)

/-- `desc_selector`. -/
def parseDescSel (input : List Char) : Selector × List Char :=
  let (sel, r) := parseComboSel input
  parseDescLoop (r.length + 1) sel r

/-- The separator of `either`: `(space0, ',', space0)`, attempted inside
`separated`, which checkpoints and restores the input when it fails. -/
def eitherSepAttempt (input : List Char) : Option (List Char) :=
  let r1 := input.dropWhile isSpaceTab
  match r1 with
  | ',' :: rest => some (rest.dropWhile isSpaceTab)
  | _ => none

/-- The continuation loop of `separated(1.., desc_selector, sep)`:
`desc_selector` itself never fails. -/
def parseEitherLoop : Nat → List Selector → List Char → List Selector × List Char
  | 0, acc, input => (acc, input)
  | fuel + 1, acc, input =>
    match eitherSepAttempt input with
    | some rest =>
      let (sel, r2) := parseDescSel rest
      parseEitherLoop fuel (acc ++ [sel]) r2
    | none => (acc, input)

/-- `either`'s result mapping: a single alternative is returned bare,
otherwise the alternatives are wrapped in `Either`. -/
def mkEitherSel : List Selector → Selector
  | [s] => s
  | items => .either items

/-- `impl FromStr for Selector`: trim the input, run `selector_parser`, and
require the whole input to be consumed (winnow's `Parser::parse`). -/
def parseSelector (s : String) : Option Selector :=
  let input := trimChars s.data
  let (d1, r1) := parseDescSel input
  let (items, r2) := parseEitherLoop (r1.length + 1) [d1] r1
  if r2.isEmpty then some (mkEitherSel items) else none

/-! ## The selector matcher (src/selector_matcher.rs)

Entities are modelled as arena indices (`Nat`).  The Bevy parent hierarchy
is acyclic; we encode this by requiring a parent's index to be smaller than
its child's, which is what justifies termination of the ancestor walk in
`is_descendant` (the Rust loop would diverge on a cyclic hierarchy).  The
ECS queries become function fields: a query that can miss (entity despawned
or lacking the component) returns `Option`. -/

structure MatchWorld where
  /-- `classes_query`: the `ElementClasses` class-name set of an entity. -/
  classesOf : Nat → Option (List String)
  /-- `parent_query`: the tree parent. -/
  parentOf : Nat → Option Nat
  /-- `children_query`: the ordered children list. -/
  childrenOf : Nat → Option (List Nat)
  /-- `hover_map`: the entry set for `PointerId::Mouse`, when present
  (bevy_mod_picking feature enabled). -/
  hoverMap : Option (List Nat)
  /-- `focus`: the current focus entity. -/
  focusEntity : Option Nat
  /-- Arena encoding of acyclicity of the parent hierarchy. -/
  parent_lt : ∀ e p, parentOf e = some p → p < e

/-- `SelectorMatcher::is_descendant`: walk up from `e` looking for
`ancestor`. -/
def MatchWorld.is_descendant (w : MatchWorld) (e ancestor : Nat) : Bool :=
  if e = ancestor then true
  else
    match h : w.parentOf e with
    | some p => w.is_descendant p ancestor
    | none => false
termination_by e
decreasing_by exact w.parent_lt e p h

/-- `SelectorMatcher::is_hovering` (bevy_mod_picking enabled): some hover-map
entry has `e` on its ancestor-or-self chain. -/
def MatchWorld.is_hovering (w : MatchWorld) (e : Nat) : Bool :=
  match w.hoverMap with
  | some m => m.any fun ha => w.is_descendant ha e
  | none => false

/-- `SelectorMatcher::is_focused`. -/
def MatchWorld.is_focused (w : MatchWorld) (e : Nat) : Bool :=
  w.focusEntity = some e

/-- `SelectorMatcher::is_focus_within`. -/
def MatchWorld.is_focus_within (w : MatchWorld) (e : Nat) : Bool :=
  match w.focusEntity with
  | some f => w.is_descendant f e
  | none => false

/-- `SelectorMatcher::is_focus_visible` (currently identical to
`is_focused`; the configuration flag is a noted TODO in the source). -/
def MatchWorld.is_focus_visible (w : MatchWorld) (e : Nat) : Bool :=
  w.focusEntity = some e

/-- `SelectorMatcher::is_first_child`. -/
def MatchWorld.is_first_child (w : MatchWorld) (e : Nat) : Bool :=
  match w.parentOf e with
  | some p =>
    match w.childrenOf p with
    | some children => children.head? = some e
    | none => false
  | none => false

/-- `SelectorMatcher::is_last_child`. -/
def MatchWorld.is_last_child (w : MatchWorld) (e : Nat) : Bool :=
  match w.parentOf e with
  | some p =>
    match w.childrenOf p with
    | some children => children.getLast? = some e
    | none => false
  | none => false

mutual

/-- `SelectorMatcher::selector_match` from src/selector_matcher.rs. -/
def MatchWorld.selector_match (w : MatchWorld) : Selector → Nat → Bool
  | .accept, _ => true
  | .cls c next, e =>
    match w.classesOf e with
    | some classes => classes.contains c && w.selector_match next e
    | none => false
  | .hover next, e => w.is_hovering e && w.selector_match next e
  | .focus next, e => w.is_focused e && w.selector_match next e
  | .focusWithin next, e => w.is_focus_within e && w.selector_match next e
  | .focusVisible next, e => w.is_focus_visible e && w.selector_match next e
  | .firstChild next, e => w.is_first_child e && w.selector_match next e
  | .lastChild next, e => w.is_last_child e && w.selector_match next e
  | .current next, e => w.selector_match next e
  | .parent next, e =>
    match w.parentOf e with
    | some p => w.selector_match next p
    | none => false
  | .either opts, e => MatchWorld.selectorMatchAny w opts e

/-- `opts.iter().any(|next| self.selector_match(next, entity))`. -/
def MatchWorld.selectorMatchAny (w : MatchWorld) : List Selector → Nat → Bool
  | [], _ => false
  | s :: rest, e => w.selector_match s e || MatchWorld.selectorMatchAny w rest e

end

/-! ## Transitions (transition.rs) and layout animation (src/animate.rs) -/

/-- `TransitionProperty` from transition.rs. -/
inductive TransitionProperty where
  | transform
  | backgroundColor
  | borderColor
  | left
  | top
  | bottom
  | right
  | height
  | width
  | borderLeft
  | borderTop
  | borderRight
  | borderBottom
deriving DecidableEq

/-- Rust `f32::clamp(min, max)`. -/
def rustClamp (x lo hi : ℚ) : ℚ :=
  if x < lo then lo else if x > hi then hi else x

/-- `Transition` from transition.rs.  The timing function is a trait object
(`&dyn TimingFunction`), modelled as a function field; `timing::LINEAR`
is the identity. -/
structure Transition where
  property : TransitionProperty
  delay : ℚ
  duration : ℚ
  timing : ℚ → ℚ

/-- `timing::LINEAR`. -/
def timingLinear : ℚ → ℚ := fun t => t

/-- `timing::EASE_IN` (cubic). -/
def timingEaseIn : ℚ → ℚ := fun t => t * t * t

/-- `timing::EASE_OUT` (cubic). -/
def timingEaseOut : ℚ → ℚ := fun t => 1 - (1 - t) ^ (3 : ℕ)

/-- `TransitionState` from transition.rs. -/
structure TransitionState where
  transition : Transition
  clock : ℚ

/-- `TransitionState::advance`. -/
def TransitionState.advance (s : TransitionState) (delta : ℚ) : TransitionState :=
  if s.transition.duration > 0 then
    { s with clock := rustClamp (s.clock + delta / s.transition.duration) 0 1 }
  else
    { s with clock := 1 }

/-- `TransitionState::t`: the eased progress. -/
def TransitionState.t (s : TransitionState) : ℚ :=
  s.transition.timing s.clock

/-- bevy `ui::Val`. -/
inductive Val where
  | auto
  | px (v : ℚ)
  | percent (v : ℚ)
  | vw (v : ℚ)
  | vh (v : ℚ)
  | vmin (v : ℚ)
  | vmax (v : ℚ)
deriving DecidableEq

/-- bevy `ui::UiRect`. -/
structure UiRect where
  left : Val
  right : Val
  top : Val
  bottom : Val
deriving DecidableEq

/-- `UiRect::all`. -/
def UiRect.all (v : Val) : UiRect := ⟨v, v, v, v⟩

/-- `UiRect::axes(horizontal, vertical)`. -/
def UiRect.axes (horizontal vertical : Val) : UiRect :=
  ⟨horizontal, horizontal, vertical, vertical⟩

/-- `UiRect::new(left, right, top, bottom)`. -/
def UiRect.mk4 (left right top bottom : Val) : UiRect :=
  ⟨left, right, top, bottom⟩

/-- The fields of bevy `ui::Style` read and written by the layout-transition
functions in src/animate.rs (the remaining `Style` fields are never touched
by them). -/
structure Style where
  left : Val
  top : Val
  right : Val
  bottom : Val
  width : Val
  height : Val
  border : UiRect
deriving DecidableEq

/-- `AnimatedLayoutProp` from src/animate.rs. -/
structure AnimatedLayoutProp where
  state : TransitionState
  origin : ℚ
  target : ℚ

/-- `AnimatedLayoutProp::new`. -/
def AnimatedLayoutProp.mkNew (state : TransitionState) : AnimatedLayoutProp :=
  ⟨state, 0, 0⟩

/-- `AnimatedLayoutProp::update`: advance the clock and, when the eased
progress differs from the pre-advance raw clock or `force` is set, write the
interpolated value into the style.  The `panic!("Invalid style transition
prop")` arms are modelled as `none`; note they sit inside the write branch,
so they are reached only when a write is attempted. -/
def AnimatedLayoutProp.update (a : AnimatedLayoutProp) (prop : TransitionProperty)
    (style : Style) (delta : ℚ) (force : Bool) :
    Option (AnimatedLayoutProp × Style) :=
  let tOld := a.state.clock
  let st := a.state.advance delta
  let t := st.transition.timing st.clock
  let a2 := { a with state := st }
  if t ≠ tOld || force then
    let value := a.target * t + a.origin * (1 - t)
    match prop with
    | .width => some (a2, { style with width := .px value })
    | .height => some (a2, { style with height := .px value })
    | .left => some (a2, { style with left := .px value })
    | .top => some (a2, { style with top := .px value })
    | .bottom => some (a2, { style with bottom := .px value })
    | .right => some (a2, { style with right := .px value })
    | .borderLeft => some (a2, { style with border := { style.border with left := .px value } })
    | .borderTop => some (a2, { style with border := { style.border with top := .px value } })
    | .borderRight => some (a2, { style with border := { style.border with right := .px value } })
    | .borderBottom => some (a2, { style with border := { style.border with bottom := .px value } })
    | .transform => none
    | .backgroundColor => none
    | .borderColor => none
  else
    some (a2, style)

/-- The property-to-field table shared by `update` and `restart_if_changed`:
the style field a layout transition property animates, `none` for the three
properties whose arms panic. -/
def layoutField (prop : TransitionProperty) (style : Style) : Option Val :=
  match prop with
  | .width => some style.width
  | .height => some style.height
  | .left => some style.left
  | .top => some style.top
  | .bottom => some style.bottom
  | .right => some style.right
  | .borderLeft => some style.border.left
  | .borderTop => some style.border.top
  | .borderRight => some style.border.right
  | .borderBottom => some style.border.bottom
  | .transform => none
  | .backgroundColor => none
  | .borderColor => none

/-- `AnimatedLayoutProp::restart_if_changed` from src/animate.rs: look up the
previous/next values of the property (panicking — `none` — for the three
non-layout properties), and restart only when both are pixel values and the
next differs from the stored target. -/
def AnimatedLayoutProp.restart_if_changed (a : AnimatedLayoutProp)
    (prop : TransitionProperty) (prevStyle nextStyle : Style) :
    Option AnimatedLayoutProp :=
  match layoutField prop nextStyle, layoutField prop prevStyle with
  | some next, some prev =>
    match next, prev with
    | .px nextValue, .px prevValue =>
      if a.target ≠ nextValue then
        some { a with
                 origin := prevValue
                 target := nextValue
                 state := { a.state with clock := 0 } }
      else some a
    | _, _ => some a
  | _, _ => none

/-! ## Property values and the style grammar (style_parser.rs)

Colors model bevy `render::color::Color` (sRGB, linear-RGB and HSL
variants; the LCH variant is never produced by this parser). -/

inductive Color where
  | rgba (r g b a : ℚ)
  | rgbaLinear (r g b a : ℚ)
  | hsla (h s l a : ℚ)
deriving DecidableEq

/-- bevy `Color::rgb`. -/
def Color.rgb (r g b : ℚ) : Color := .rgba r g b 1

/-- bevy `Color::rgb_linear`. -/
def Color.rgbLinear (r g b : ℚ) : Color := .rgbaLinear r g b 1

/-- bevy `Color::hsl`. -/
def Color.hsl (h s l : ℚ) : Color := .hsla h s l 1

/-- Hex digit value. -/
def hexNibble (c : Char) : Option Nat :=
  if 48 ≤ c.toNat && c.toNat ≤ 57 then some (c.toNat - 48)
  else if 97 ≤ c.toNat && c.toNat ≤ 102 then some (c.toNat - 87)
  else if 65 ≤ c.toNat && c.toNat ≤ 70 then some (c.toNat - 55)
  else none

/-- bevy `Color::hex` (dependency code): strip a leading `#`, then accept
exactly 3 (`RGB`), 4 (`RGBA`), 6 (`RRGGBB`) or 8 (`RRGGBBAA`) hex digits,
expanding single digits by repetition; channels are `u8 / 255`. -/
def Color.hexColor (input : List Char) : Option Color :=
  let digits := match input with
    | '#' :: rest => rest
    | other => other
  match digits with
  | [r, g, b] => do
    let rv ← hexNibble r
    let gv ← hexNibble g
    let bv ← hexNibble b
    some (Color.rgba (17 * rv / 255) (17 * gv / 255) (17 * bv / 255) 1)
  | [r, g, b, a] => do
    let rv ← hexNibble r
    let gv ← hexNibble g
    let bv ← hexNibble b
    let av ← hexNibble a
    some (Color.rgba (17 * rv / 255) (17 * gv / 255) (17 * bv / 255) (17 * av / 255))
  | [r1, r2, g1, g2, b1, b2] => do
    let rv1 ← hexNibble r1
    let rv2 ← hexNibble r2
    let gv1 ← hexNibble g1
    let gv2 ← hexNibble g2
    let bv1 ← hexNibble b1
    let bv2 ← hexNibble b2
    some (Color.rgba ((16 * rv1 + rv2) / 255) ((16 * gv1 + gv2) / 255)
      ((16 * bv1 + bv2) / 255) 1)
  | [r1, r2, g1, g2, b1, b2, a1, a2] => do
    let rv1 ← hexNibble r1
    let rv2 ← hexNibble r2
    let gv1 ← hexNibble g1
    let gv2 ← hexNibble g2
    let bv1 ← hexNibble b1
    let bv2 ← hexNibble b2
    let av1 ← hexNibble a1
    let av2 ← hexNibble a2
    some (Color.rgba ((16 * rv1 + rv2) / 255) ((16 * gv1 + gv2) / 255)
      ((16 * bv1 + bv2) / 255) ((16 * av1 + av2) / 255))
  | _ => none

/-- bevy `ui::Display`. -/
inductive DisplayKind where
  | flex
  | grid
  | none
deriving DecidableEq

/-- bevy `ui::PositionType`. -/
inductive PositionType where
  | relative
  | absolute
deriving DecidableEq

/-- bevy `ui::FlexDirection`. -/
inductive FlexDirection where
  | row
  | rowReverse
  | column
  | columnReverse
deriving DecidableEq

/-- bevy `ui::AlignItems`. -/
inductive AlignItems where
  | dflt
  | start
  | stop
  | flexStart
  | flexEnd
  | center
  | baseline
  | stretch
deriving DecidableEq

/-- bevy `ui::AlignContent`. -/
inductive AlignContent where
  | dflt
  | start
  | stop
  | flexStart
  | flexEnd
  | center
  | stretch
  | spaceBetween
  | spaceEvenly
  | spaceAround
deriving DecidableEq

/-- bevy `ui::AlignSelf`. -/
inductive AlignSelf where
  | auto
  | start
  | stop
  | flexStart
  | flexEnd
  | center
  | baseline
  | stretch
deriving DecidableEq

/-- bevy `ui::JustifyItems`. -/
inductive JustifyItems where
  | dflt
  | start
  | stop
  | center
  | baseline
  | stretch
deriving DecidableEq

/-- bevy `ui::JustifyContent`. -/
inductive JustifyContent where
  | dflt
  | start
  | stop
  | flexStart
  | flexEnd
  | center
  | stretch
  | spaceBetween
  | spaceEvenly
  | spaceAround
deriving DecidableEq

/-- bevy `ui::JustifySelf`. -/
inductive JustifySelf where
  | auto
  | start
  | stop
  | center
  | baseline
  | stretch
deriving DecidableEq

/- In the ui enums above, Rust's `End` and `Default` variants are rendered
as `stop` and `dflt` (both are Lean keywords). -/

/-- `PropValue` from style_parser.rs. -/
inductive PropValue where
  | ident (s : String)
  | num (v : ℚ)
  | str (s : String)
  | length (v : Val)
  | list (vs : List PropValue)
  | color (c : Color)

/-- `PropValue::type_name`. -/
def PropValue.type_name : PropValue → String
  | .ident _ => "ident"
  | .num _ => "number"
  | .str _ => "string"
  | .length _ => "length"
  | .list _ => "list"
  | .color _ => "color"

/-- `StyleParsingError` from style_parser.rs. -/
inductive StyleParsingError where
  | invalidPropertyName (s : String)
  | invalidPropertyType (s : String)
  | invalidPropertyValue (s : String)
deriving DecidableEq

/-- `impl CoercePropValue<Option<Color>>`. -/
def coerceOptColor : PropValue → Except StyleParsingError (Option Color)
  | .color c => .ok (some c)
  | .ident "transparent" => .ok none
  | .ident id => .error (.invalidPropertyType ("\"" ++ id ++ "\""))
  | v => .error (.invalidPropertyType v.type_name)

/-- `impl CoercePropValue<ui::Val>`. -/
def coerceVal : PropValue → Except StyleParsingError Val
  | .num p => .ok (.px p)
  | .length l => .ok l
  | .ident "auto" => .ok .auto
  | .ident id => .error (.invalidPropertyValue ("\"" ++ id ++ "\""))
  | v => .error (.invalidPropertyType v.type_name)

/-- `impl CoercePropValue<ui::UiRect>`.  The list arms index the value list
in the source's order: 2 values are `(vertical, horizontal)` via
`UiRect::axes(vals[1], vals[0])`; 3 values are CSS `(top, right/left,
bottom)` via `UiRect::new(vals[1], vals[1], vals[0], vals[2])`; 4 values
are CSS `(top, right, bottom, left)` via `UiRect::new(vals[3], vals[1],
vals[0], vals[2])`.  Any other list length is `unreachable!()` in the
source (the parser only builds lists of 2 or 3); it is mapped to an error
here and never exercised. -/
def coerceRect : PropValue → Except StyleParsingError UiRect
  | .num p => .ok (UiRect.all (.px p))
  | .length l => .ok (UiRect.all l)
  | .list [v0, v1] => do
    let a ← coerceVal v1
    let b ← coerceVal v0
    .ok (UiRect.axes a b)
  | .list [v0, v1, v2] => do
    let a ← coerceVal v1
    let b ← coerceVal v1
    let c ← coerceVal v0
    let d ← coerceVal v2
    .ok (UiRect.mk4 a b c d)
  | .list [v0, v1, v2, v3] => do
    let a ← coerceVal v3
    let b ← coerceVal v1
    let c ← coerceVal v0
    let d ← coerceVal v2
    .ok (UiRect.mk4 a b c d)
  | .list _ => .error (.invalidPropertyType "list")
  | .ident "auto" => .ok (UiRect.all .auto)
  | .ident id => .error (.invalidPropertyValue ("\"" ++ id ++ "\""))
  | v => .error (.invalidPropertyType v.type_name)

/-- `impl CoercePropValue<ui::Display>`. -/
def coerceDisplay : PropValue → Except StyleParsingError DisplayKind
  | .ident "flex" => .ok .flex
  | .ident "grid" => .ok .grid
  | .ident "none" => .ok .none
  | .ident id => .error (.invalidPropertyValue ("\"" ++ id ++ "\""))
  | v => .error (.invalidPropertyType v.type_name)

/-- `impl CoercePropValue<ui::PositionType>`. -/
def coercePositionType : PropValue → Except StyleParsingError PositionType
  | .ident "relative" => .ok .relative
  | .ident "absolute" => .ok .absolute
  | .ident id => .error (.invalidPropertyValue ("\"" ++ id ++ "\""))
  | v => .error (.invalidPropertyType v.type_name)

/-- `impl CoercePropValue<ui::FlexDirection>`. -/
def coerceFlexDirection : PropValue → Except StyleParsingError FlexDirection
  | .ident "row" => .ok .row
  | .ident "row_reverse" => .ok .rowReverse
  | .ident "column" => .ok .column
  | .ident "column_reverse" => .ok .columnReverse
  | .ident id => .error (.invalidPropertyValue ("\"" ++ id ++ "\""))
  | v => .error (.invalidPropertyType v.type_name)

/-- `impl CoercePropValue<ui::AlignItems>`. -/
def coerceAlignItems : PropValue → Except StyleParsingError AlignItems
  | .ident "default" => .ok .dflt
  | .ident "start" => .ok .start
  | .ident "end" => .ok .stop
  | .ident "flex_start" => .ok .flexStart
  | .ident "flex_end" => .ok .flexEnd
  | .ident "center" => .ok .center
  | .ident "baseline" => .ok .baseline
  | .ident "stretch" => .ok .stretch
  | .ident id => .error (.invalidPropertyValue ("\"" ++ id ++ "\""))
  | v => .error (.invalidPropertyType v.type_name)

/-- `impl CoercePropValue<ui::AlignContent>`. -/
def coerceAlignContent : PropValue → Except StyleParsingError AlignContent
  | .ident "default" => .ok .dflt
  | .ident "start" => .ok .start
  | .ident "end" => .ok .stop
  | .ident "flex_start" => .ok .flexStart
  | .ident "flex_end" => .ok .flexEnd
  | .ident "center" => .ok .center
  | .ident "stretch" => .ok .stretch
  | .ident "space_between" => .ok .spaceBetween
  | .ident "space_evenly" => .ok .spaceEvenly
  | .ident "space_around" => .ok .spaceAround
  | .ident id => .error (.invalidPropertyValue ("\"" ++ id ++ "\""))
  | v => .error (.invalidPropertyType v.type_name)

/-- `impl CoercePropValue<ui::AlignSelf>`. -/
def coerceAlignSelf : PropValue → Except StyleParsingError AlignSelf
  | .ident "auto" => .ok .auto
  | .ident "start" => .ok .start
  | .ident "end" => .ok .stop
  | .ident "flex_start" => .ok .flexStart
  | .ident "flex_end" => .ok .flexEnd
  | .ident "center" => .ok .center
  | .ident "baseline" => .ok .baseline
  | .ident "stretch" => .ok .stretch
  | .ident id => .error (.invalidPropertyValue ("\"" ++ id ++ "\""))
  | v => .error (.invalidPropertyType v.type_name)

/-- `impl CoercePropValue<ui::JustifyItems>`. -/
def coerceJustifyItems : PropValue → Except StyleParsingError JustifyItems
  | .ident "default" => .ok .dflt
  | .ident "start" => .ok .start
  | .ident "end" => .ok .stop
  | .ident "center" => .ok .center
  | .ident "baseline" => .ok .baseline
  | .ident "stretch" => .ok .stretch
  | .ident id => .error (.invalidPropertyValue ("\"" ++ id ++ "\""))
  | v => .error (.invalidPropertyType v.type_name)

/-- `impl CoercePropValue<ui::JustifyContent>`. -/
def coerceJustifyContent : PropValue → Except StyleParsingError JustifyContent
  | .ident "default" => .ok .dflt
  | .ident "start" => .ok .start
  | .ident "end" => .ok .stop
  | .ident "flex_start" => .ok .flexStart
  | .ident "flex_end" => .ok .flexEnd
  | .ident "center" => .ok .center
  | .ident "stretch" => .ok .stretch
  | .ident "space_between" => .ok .spaceBetween
  | .ident "space_evenly" => .ok .spaceEvenly
  | .ident "space_around" => .ok .spaceAround
  | .ident id => .error (.invalidPropertyValue ("\"" ++ id ++ "\""))
  | v => .error (.invalidPropertyType v.type_name)

/-- `impl CoercePropValue<ui::JustifySelf>`. -/
def coerceJustifySelf : PropValue → Except StyleParsingError JustifySelf
  | .ident "auto" => .ok .auto
  | .ident "start" => .ok .start
  | .ident "end" => .ok .stop
  | .ident "center" => .ok .center
  | .ident "baseline" => .ok .baseline
  | .ident "stretch" => .ok .stretch
  | .ident id => .error (.invalidPropertyValue ("\"" ++ id ++ "\""))
  | v => .error (.invalidPropertyType v.type_name)

/-- Modelled from the spec: the `StyleProp` enumeration itself lives in
crates/bevy_peacock_style/src/style_props.rs, which is not among the
provided sources; its variants and payload types here are exactly those
constructed by `create_prop` in style_parser.rs (which is provided), per
the spec's "closed enumeration … each carrying its native semantic type".
Only the variants `create_prop` can produce are included. -/
inductive StyleProp where
  | backgroundColor (c : Option Color)
  | borderColor (c : Option Color)
  | color (c : Option Color)
  | display (d : DisplayKind)
  | position (p : PositionType)
  | left (v : Val)
  | right (v : Val)
  | top (v : Val)
  | bottom (v : Val)
  | width (v : Val)
  | height (v : Val)
  | minWidth (v : Val)
  | minHeight (v : Val)
  | maxWidth (v : Val)
  | maxHeight (v : Val)
  | border (r : UiRect)
  | borderLeft (v : Val)
  | borderRight (v : Val)
  | borderTop (v : Val)
  | borderBottom (v : Val)
  | padding (r : UiRect)
  | paddingLeft (v : Val)
  | paddingRight (v : Val)
  | paddingTop (v : Val)
  | paddingBottom (v : Val)
  | margin (r : UiRect)
  | marginLeft (v : Val)
  | marginRight (v : Val)
  | marginTop (v : Val)
  | marginBottom (v : Val)
  | flexDirection (d : FlexDirection)
  | flexBasis (v : Val)
  | rowGap (v : Val)
  | columnGap (v : Val)
  | gap (v : Val)
  | alignItems (a : AlignItems)
  | alignContent (a : AlignContent)
  | alignSelf (a : AlignSelf)
  | justifyItems (a : JustifyItems)
  | justifyContent (a : JustifyContent)
  | justifySelf (a : JustifySelf)
deriving DecidableEq

/-- `create_prop` from style_parser.rs: the static property-name lookup
table; unknown names yield `InvalidPropertyName`. -/
def create_prop (name : String) (value : PropValue) :
    Except StyleParsingError StyleProp :=
  match name with
  | "background_color" => do .ok (.backgroundColor (← coerceOptColor value))
  | "border_color" => do .ok (.borderColor (← coerceOptColor value))
  | "color" => do .ok (.color (← coerceOptColor value))
  | "display" => do .ok (.display (← coerceDisplay value))
  | "position_type" => do .ok (.position (← coercePositionType value))
  | "left" => do .ok (.left (← coerceVal value))
  | "right" => do .ok (.right (← coerceVal value))
  | "top" => do .ok (.top (← coerceVal value))
  | "bottom" => do .ok (.bottom (← coerceVal value))
  | "width" => do .ok (.width (← coerceVal value))
  | "height" => do .ok (.height (← coerceVal value))
  | "min_width" => do .ok (.minWidth (← coerceVal value))
  | "min_height" => do .ok (.minHeight (← coerceVal value))
  | "max_width" => do .ok (.maxWidth (← coerceVal value))
  | "max_height" => do .ok (.maxHeight (← coerceVal value))
  | "border" => do .ok (.border (← coerceRect value))
  | "border_left" => do .ok (.borderLeft (← coerceVal value))
  | "border_right" => do .ok (.borderRight (← coerceVal value))
  | "border_top" => do .ok (.borderTop (← coerceVal value))
  | "border_bottom" => do .ok (.borderBottom (← coerceVal value))
  | "padding" => do .ok (.padding (← coerceRect value))
  | "padding_left" => do .ok (.paddingLeft (← coerceVal value))
  | "padding_right" => do .ok (.paddingRight (← coerceVal value))
  | "padding_top" => do .ok (.paddingTop (← coerceVal value))
  | "padding_bottom" => do .ok (.paddingBottom (← coerceVal value))
  | "margin" => do .ok (.margin (← coerceRect value))
  | "margin_left" => do .ok (.marginLeft (← coerceVal value))
  | "margin_right" => do .ok (.marginRight (← coerceVal value))
  | "margin_top" => do .ok (.marginTop (← coerceVal value))
  | "margin_bottom" => do .ok (.marginBottom (← coerceVal value))
  | "flex_direction" => do .ok (.flexDirection (← coerceFlexDirection value))
  | "flex_basis" => do .ok (.flexBasis (← coerceVal value))
  | "row_gap" => do .ok (.rowGap (← coerceVal value))
  | "column_gap" => do .ok (.columnGap (← coerceVal value))
  | "gap" => do .ok (.gap (← coerceVal value))
  | "align_items" => do .ok (.alignItems (← coerceAlignItems value))
  | "align_content" => do .ok (.alignContent (← coerceAlignContent value))
  | "align_self" => do .ok (.alignSelf (← coerceAlignSelf value))
  | "justify_items" => do .ok (.justifyItems (← coerceJustifyItems value))
  | "justify_content" => do .ok (.justifyContent (← coerceJustifyContent value))
  | "justify_self" => do .ok (.justifySelf (← coerceJustifySelf value))
  | _ => .error (.invalidPropertyName name)

/-! ### The value parsers of style_parser.rs -/

/-- Take at most `n` matching characters (winnow take_while with a bounded
range consumes greedily up to the bound). -/
def takeUpTo : Nat → (Char → Bool) → List Char → List Char × List Char
  | 0, _, input => ([], input)
  | _ + 1, _, [] => ([], [])
  | n + 1, p, c :: rest =>
    if p c then
      let (taken, left) := takeUpTo n p rest
      (c :: taken, left)
    else ([], c :: rest)

/-- ASCII decimal digit run (winnow digit1 when non-empty). -/
def isDigitChar (c : Char) : Bool := 48 ≤ c.toNat && c.toNat ≤ 57

/-- Digits to a natural number (most significant first). -/
def digitsToNat (ds : List Char) : Nat :=
  ds.foldl (fun acc c => acc * 10 + (c.toNat - 48)) 0

/-- `f32_arg`, i.e. winnow `ascii::float` for f32, on the decimal fragment
of its grammar: optional sign, an integer part with optional fraction (or a
bare fraction), and an optional exponent.  The `inf`/`infinity`/`nan`
alternatives of the winnow grammar have no rational value and are omitted;
no input considered in this development reaches them (an alphabetic value
is consumed by the `ident` alternative before `length` is ever tried).
The f32 rounding of `str::parse` is modelled as exact rational reading. -/
def parseF32 (input : List Char) : Option (ℚ × List Char) :=
  let (sign, r0) :=
    match input with
    | '+' :: rest => ((1 : ℚ), rest)
    | '-' :: rest => ((-1 : ℚ), rest)
    | other => ((1 : ℚ), other)
  let core : Option (ℚ × List Char) :=
    match takeWhileSplit isDigitChar r0 with
    | ([], _) =>
      match r0 with
      | '.' :: r1 =>
        match takeWhileSplit isDigitChar r1 with
        | ([], _) => none
        | (frac, r2) =>
          some ((digitsToNat frac : ℚ) / ((10 : ℚ) ^ frac.length), r2)
      | _ => none
    | (intPart, r1) =>
      match r1 with
      | '.' :: r2 =>
        let (frac, r3) := takeWhileSplit isDigitChar r2
        some ((digitsToNat intPart : ℚ) +
          (digitsToNat frac : ℚ) / ((10 : ℚ) ^ frac.length), r3)
      | _ => some ((digitsToNat intPart : ℚ), r1)
  match core with
  | none => none
  | some (mag, r4) =>
    match r4 with
    | 'e' :: r5 =>
      match parseExpPart r5 with
      | some (e, r6) => some (sign * mag * e, r6)
      | none => none
    | 'E' :: r5 =>
      match parseExpPart r5 with
      | some (e, r6) => some (sign * mag * e, r6)
      | none => none
    | _ => some (sign * mag, r4)
where
  parseExpPart (input : List Char) : Option (ℚ × List Char) :=
    let (esign, r0) :=
      match input with
      | '+' :: rest => (true, rest)
      | '-' :: rest => (false, rest)
      | other => (true, other)
    match takeWhileSplit isDigitChar r0 with
    | ([], _) => none
    | (ds, r1) =>
      let e : ℚ := (10 : ℚ) ^ digitsToNat ds
      some (if esign then e else e⁻¹, r1)

/-- `length`: `auto`, a float with a unit (`%`, `px`, `vh`, `vw`, `vmin`,
`vmax`, tried in that order), or a bare float (a `Number`, later coerced as
pixels). -/
def parseLength (input : List Char) : Option (PropValue × List Char) :=
  match stripTag "auto".data input with
  | some rest => some (.length .auto, rest)
  | none =>
    match parseF32 input with
    | none => none
    | some (num, r1) =>
      match stripTag "%".data r1 with
      | some r2 => some (.length (.percent num), r2)
      | none =>
        match stripTag "px".data r1 with
        | some r2 => some (.length (.px num), r2)
        | none =>
          match stripTag "vh".data r1 with
          | some r2 => some (.length (.vh num), r2)
          | none =>
            match stripTag "vw".data r1 with
            | some r2 => some (.length (.vw num), r2)
            | none =>
              match stripTag "vmin".data r1 with
              | some r2 => some (.length (.vmin num), r2)
              | none =>
                match stripTag "vmax".data r1 with
                | some r2 => some (.length (.vmax num), r2)
                | none => some (.num num, r1)

/-- One `separated` continuation step for `length_list`: `space1` then
`length`; on failure the caller keeps its checkpoint (its own input). -/
def sepLengthAttempt (input : List Char) : Option (PropValue × List Char) :=
  let (sp, r1) := takeWhileSplit isSpaceTab input
  if sp.isEmpty then none
  else parseLength r1

/-- `length_list`, i.e. `separated(2..4, length, space1)`: winnow converts
the std range `2..4` to the inclusive repetition bounds `[2, 3]`, so a
list of two or three lengths parses and a fourth length is never consumed.
Fewer than two elements is a parse failure. -/
def parseLengthList (input : List Char) : Option (PropValue × List Char) :=
  match parseLength input with
  | none => none
  | some (v1, r1) =>
    match sepLengthAttempt r1 with
    | none => none
    | some (v2, r2) =>
      match sepLengthAttempt r2 with
      | none => some (.list [v1, v2], r2)
      | some (v3, r3) => some (.list [v1, v2, v3], r3)

/-- The hex-literal alternative of `color`:
`('#', take_while(1..8, AsChar::is_hex_digit)).recognize().try_map(Color::hex)`.
The std range `1..8` becomes the inclusive bounds `[1, 7]`, so at most
seven hex digits are consumed; `Color::hex` then rejects any recognized
digit count outside {3, 4, 6, 8}. -/
def parseColorHex (input : List Char) : Option (PropValue × List Char) :=
  match input with
  | '#' :: rest =>
    let (digits, left) := takeUpTo 7 isHexDigitChar rest
    if digits.isEmpty then none
    else
      match Color.hexColor ('#' :: digits) with
      | some c => some (.color c, left)
      | none => none
  | _ => none

/-- `color_arg_sep`: `(multispace0, opt((',', multispace0)))` — total. -/
def colorArgSep (input : List Char) : List Char :=
  let r1 := input.dropWhile isMultispace
  match r1 with
  | ',' :: rest => rest.dropWhile isMultispace
  | _ => r1

/-- `alpha_sep`: like `color_arg_sep` but also accepting `/`. -/
def alphaSep (input : List Char) : List Char :=
  let r1 := input.dropWhile isMultispace
  match r1 with
  | ',' :: rest => rest.dropWhile isMultispace
  | '/' :: rest => rest.dropWhile isMultispace
  | _ => r1

/-- The function-name alternation of `color_fn`, in source order: `rgb`,
`rgba`, `rgb_linear`, `rgba_linear`, `hsl`, `hsla`.  `alt` commits to the
first tag that matches; since `rgb` is a prefix of `rgba`/`rgb_linear`
(and `hsl` of `hsla`), only `rgb` and `hsl` can ever be chosen, and a
later mismatch (at `(`) fails `color_fn` without reconsidering. -/
def pickColorFnName (input : List Char) : Option (String × List Char) :=
  match stripTag "rgb".data input with
  | some r => some ("rgb", r)
  | none =>
    match stripTag "rgba".data input with
    | some r => some ("rgba", r)
    | none =>
      match stripTag "rgb_linear".data input with
      | some r => some ("rgb_linear", r)
      | none =>
        match stripTag "rgba_linear".data input with
        | some r => some ("rgba_linear", r)
        | none =>
          match stripTag "hsl".data input with
          | some r => some ("hsl", r)
          | none =>
            match stripTag "hsla".data input with
            | some r => some ("hsla", r)
            | none => none

/-- The argument body of `color_fn` after the opening parenthesis:
`multispace0, f32 sep f32 sep f32, opt(alpha_sep f32), multispace0, ')'`. -/
def parseColorFnArgs (input : List Char) :
    Option ((ℚ × ℚ × ℚ × Option ℚ) × List Char) :=
  let r0 := input.dropWhile isMultispace
  match parseF32 r0 with
  | none => none
  | some (a1, r1) =>
    match parseF32 (colorArgSep r1) with
    | none => none
    | some (a2, r2) =>
      match parseF32 (colorArgSep r2) with
      | none => none
      | some (a3, r3) =>
        let (a4, r4) :=
          match parseF32 (alphaSep r3) with
          | some (v, r) => ((some v : Option ℚ), r)
          | none => (none, r3)
        let r5 := r4.dropWhile isMultispace
        match r5 with
        | ')' :: r6 => some ((a1, a2, a3, a4), r6)
        | _ => none

/-- `color_fn`. -/
def parseColorFn (input : List Char) : Option (PropValue × List Char) :=
  match pickColorFnName input with
  | none => none
  | some (f, r1) =>
    let r2 := r1.dropWhile isMultispace
    match r2 with
    | '(' :: r3 =>
      match parseColorFnArgs r3 with
      | none => none
      | some ((a1, a2, a3, a4), r4) =>
        let c :=
          if f = "rgb" || f = "rgba" then
            match a4 with
            | some alpha => Color.rgba a1 a2 a3 alpha
            | none => Color.rgb a1 a2 a3
          else if f = "rgb_linear" || f = "rgba_linear" then
            match a4 with
            | some alpha => Color.rgbaLinear a1 a2 a3 alpha
            | none => Color.rgbLinear a1 a2 a3
          else
            match a4 with
            | some alpha => Color.hsla a1 a2 a3 alpha
            | none => Color.hsl a1 a2 a3
        some (.color c, r4)
    | _ => none

/-- `color`: the hex literal or the functional notation. -/
def parseColor (input : List Char) : Option (PropValue × List Char) :=
  match parseColorHex input with
  | some r => some r
  | none => parseColorFn input

/-- `ident` (also the grammar of `prop_name`): an ASCII alphabetic head and
an alphanumeric-or-underscore tail. -/
def parseIdentName (input : List Char) : Option (String × List Char) :=
  match input with
  | c :: rest =>
    if isAlphaChar c then
      let (taken, left) := takeWhileSplit isIdentTailChar rest
      some (String.mk (c :: taken), left)
    else none
  | [] => none

/-- `ident` as a `PropValue`. -/
def parseIdent (input : List Char) : Option (PropValue × List Char) :=
  match parseIdentName input with
  | some (s, r) => some (.ident s, r)
  | none => none

/-- `string_chars`, winnow `escaped_transform`: plain characters other than
`"` and `\`, with escapes `\\`, `\"` and `\n`.  Fuel decreases with each
consumed character. -/
def parseStringChars : Nat → List Char → Option (String × List Char)
  | 0, input => some ("", input)
  | _ + 1, [] => some ("", [])
  | fuel + 1, c :: rest =>
    if c = '\\' then
      match rest with
      | '\\' :: r2 => do
        let (s, r3) ← parseStringChars fuel r2
        some ("\\" ++ s, r3)
      | '"' :: r2 => do
        let (s, r3) ← parseStringChars fuel r2
        some ("\"" ++ s, r3)
      | 'n' :: r2 => do
        let (s, r3) ← parseStringChars fuel r2
        some ("\n" ++ s, r3)
      | _ => none
    else if c = '"' then some ("", c :: rest)
    else do
      let (s, r2) ← parseStringChars fuel (rest)
      some (String.mk [c] ++ s, r2)

/-- `string`: a double-quoted literal. -/
def parseStringVal (input : List Char) : Option (PropValue × List Char) :=
  match input with
  | '"' :: rest => do
    let (s, r1) ← parseStringChars rest.length rest
    match r1 with
    | '"' :: r2 => some (.str s, r2)
    | _ => none
  | _ => none

/-- The value alternation of `style_prop_inner`:
`alt((color, ident, length_list, length, string))`. -/
def parsePropValue (input : List Char) : Option (PropValue × List Char) :=
  match parseColor input with
  | some r => some r
  | none =>
    match parseIdent input with
    | some r => some r
    | none =>
      match parseLengthList input with
      | some r => some r
      | none =>
        match parseLength input with
        | some r => some r
        | none => parseStringVal input

/-- The trailing `whitespace` parser: `//` line comments and whitespace
characters, repeated. -/
def skipWsComments : Nat → List Char → List Char
  | 0, input => input
  | fuel + 1, input =>
    match input with
    | '/' :: '/' :: rest =>
      skipWsComments fuel (rest.dropWhile fun c => c ≠ '\r' && c ≠ '\n')
    | c :: rest =>
      if c = '\n' || c = '\r' || c = '\t' || c = ' ' then
        skipWsComments fuel rest
      else input
    | [] => []

/-- `style_prop` run as a complete parse (winnow `Parser::parse`): the
declaration grammar `prop_name ':' value ';'` followed by trailing
whitespace, then `create_prop`; any parse or coercion failure is `none`. -/
def parseStyleProp (s : String) : Option StyleProp :=
  let input := s.data
  match parseIdentName input with
  | none => none
  | some (name, r1) =>
    match (r1.dropWhile isMultispace) with
    | ':' :: r2 =>
      match parsePropValue (r2.dropWhile isMultispace) with
      | none => none
      | some (value, r3) =>
        match (r3.dropWhile isMultispace) with
        | ';' :: r4 =>
          match create_prop name value with
          | .ok prop =>
            if (skipWsComments (r4.length + 1) r4).isEmpty then some prop
            else none
          | .error _ => none
        | _ => none
    | _ => none

/-! ## Specification-side predicates

These definitions follow the spec's wording (not the source) and are used
to state the claims about the source-derived definitions above. -/

mutual

/-- Modelled from the spec: the number of `Parent` hops in a selector chain,
taking the maximum over the branches of an `Either`. -/
def parentHops : Selector → Nat
  | .accept => 0
  | .cls _ next => parentHops next
  | .hover next => parentHops next
  | .focus next => parentHops next
  | .focusWithin next => parentHops next
  | .focusVisible next => parentHops next
  | .firstChild next => parentHops next
  | .lastChild next => parentHops next
  | .current next => parentHops next
  | .parent next => parentHops next + 1
  | .either opts => parentHopsMax opts

def parentHopsMax : List Selector → Nat
  | [] => 0
  | s :: rest => Nat.max (parentHops s) (parentHopsMax rest)

end

mutual

/-- Modelled from the spec: a `FocusWithin` predicate occurs somewhere in
the selector chain or in some branch of an `Either`. -/
def containsFocusWithin : Selector → Bool
  | .accept => false
  | .cls _ next => containsFocusWithin next
  | .hover next => containsFocusWithin next
  | .focus next => containsFocusWithin next
  | .focusWithin _ => true
  | .focusVisible next => containsFocusWithin next
  | .firstChild next => containsFocusWithin next
  | .lastChild next => containsFocusWithin next
  | .current next => containsFocusWithin next
  | .parent next => containsFocusWithin next
  | .either opts => containsFocusWithinAny opts

def containsFocusWithinAny : List Selector → Bool
  | [] => false
  | s :: rest => containsFocusWithin s || containsFocusWithinAny rest

end

mutual

/-- Every `Either` node in the selector has at least one branch (always
true of parser output, which builds `Either` from `separated(1.., ...)`). -/
def noEmptyEither : Selector → Bool
  | .accept => true
  | .cls _ next => noEmptyEither next
  | .hover next => noEmptyEither next
  | .focus next => noEmptyEither next
  | .focusWithin next => noEmptyEither next
  | .focusVisible next => noEmptyEither next
  | .firstChild next => noEmptyEither next
  | .lastChild next => noEmptyEither next
  | .current next => noEmptyEither next
  | .parent next => noEmptyEither next
  | .either opts => !opts.isEmpty && noEmptyEitherAll opts

def noEmptyEitherAll : List Selector → Bool
  | [] => true
  | s :: rest => noEmptyEither s && noEmptyEitherAll rest

end

/-- The ten layout properties a `TransitionProperty` can animate through
`AnimatedLayoutProp` (all but the transform and the two colors). -/
def isLayoutTP : TransitionProperty → Bool
  | .transform => false
  | .backgroundColor => false
  | .borderColor => false
  | _ => true

/-- Both `Option Val` values are pixel lengths. -/
def bothPx : Option Val → Option Val → Option (ℚ × ℚ)
  | some (.px p), some (.px n) => some (p, n)
  | _, _ => none

/-! ## Claims -/

/-- C1.  The round-trip law fails on the code: `"&:hover"` is accepted by
the selector parser, producing `Current(Hover(Accept))`, but the `Display`
implementation only reverse-orders `Class` wrappers when rendering
`Current`, so the rendering is `":hover&"`, in which `&` is not at the
start of a segment — a string the grammar rejects.  On the test suite's
own examples (class-only `&` segments) the law does hold, as the last two
conjuncts show. -/
theorem selector_roundtrip_break :
    parseSelector "&:hover" = some (Selector.current (Selector.hover Selector.accept)) ∧
    (Selector.current (Selector.hover Selector.accept)).toText = ":hover&" ∧
    parseSelector ":hover&" = none ∧
    parseSelector ".foo > &.bar.baz" =
      some (Selector.current (Selector.cls "baz" (Selector.cls "bar"
        (Selector.parent (Selector.cls "foo" Selector.accept))))) ∧
    (Selector.current (Selector.cls "baz" (Selector.cls "bar"
        (Selector.parent (Selector.cls "foo" Selector.accept))))).toText =
      ".foo > &.bar.baz" :=
  ⟨rfl, rfl, rfl, rfl, rfl⟩

/-- C6 counterexample.  The claim says a selector with no `Parent` step has
depth 0; but `Selector::depth` has `Accept => 1`, so `".foo"` (no `Parent`
hop) has depth 1. -/
theorem depth_counterexample :
    ¬ ((Selector.cls "foo" Selector.accept).depth =
        parentHops (Selector.cls "foo" Selector.accept)) := by
  decide

mutual

/-- Auxiliary form of the C6 result, mutually proved with its list
version. -/
theorem depth_eq_hops_aux (s : Selector) (h : noEmptyEither s = true) :
    s.depth = parentHops s + 1 := by
  cases s with
  | accept => rfl
  | cls name next => exact depth_eq_hops_aux next h
  | hover next => exact depth_eq_hops_aux next h
  | focus next => exact depth_eq_hops_aux next h
  | focusWithin next => exact depth_eq_hops_aux next h
  | focusVisible next => exact depth_eq_hops_aux next h
  | firstChild next => exact depth_eq_hops_aux next h
  | lastChild next => exact depth_eq_hops_aux next h
  | current next => exact depth_eq_hops_aux next h
  | parent next =>
    have := depth_eq_hops_aux next h
    simp [Selector.depth, parentHops, this]
  | either opts =>
    simp only [Bool.and_eq_true, noEmptyEither] at h
    have := depthMax_eq_hopsMax_aux opts (by
      cases opts with
      | nil => simp at h
      | cons a l => exact fun hc => by cases hc) (h.2)
    simpa [Selector.depth, parentHops] using this
termination_by (sizeOf s, 1)

/-- List version: for a non-empty list of selectors all of whose
`Either` nodes are non-empty, the fold of `depth` maxima is the fold of
`Parent`-hop maxima plus one. -/
theorem depthMax_eq_hopsMax_aux (l : List Selector) (hne : l ≠ [])
    (h : noEmptyEitherAll l = true) :
    Selector.depthMax l = parentHopsMax l + 1 := by
  cases l with
  | nil => exact absurd rfl hne
  | cons s rest =>
    simp only [Bool.and_eq_true, noEmptyEitherAll] at h
    have hs := depth_eq_hops_aux s h.1
    cases rest with
    | nil => simp [Selector.depthMax, parentHopsMax, hs]
    | cons b l2 =>
      have hr := depthMax_eq_hopsMax_aux (b :: l2) (by exact fun hc => by cases hc) h.2
      calc Selector.depthMax (s :: b :: l2)
          = Nat.max s.depth (Selector.depthMax (b :: l2)) := by
            simp only [Selector.depthMax]
        _ = Nat.max (parentHops s + 1) (parentHopsMax (b :: l2) + 1) := by
            rw [hs, hr]
        _ = Nat.max (parentHops s) (parentHopsMax (b :: l2)) + 1 :=
            Nat.succ_max_succ _ _
        _ = parentHopsMax (s :: b :: l2) + 1 := by
            simp only [parentHopsMax]
termination_by (sizeOf l, 0)

end

/-- C6 amended.  For every selector whose `Either` nodes are all non-empty
(true of everything the parser produces), `depth()` is the number of
`Parent` hops plus one: the chain ends in `Accept => 1`, each `Parent` adds
one, and `Either` takes the branch maximum. -/
theorem depth_eq_parentHops_succ (s : Selector) (h : noEmptyEither s = true) :
    s.depth = parentHops s + 1 :=
  depth_eq_hops_aux s h

/-- C6 amended, witness. -/
theorem depth_eq_parentHops_succ_witness :
    noEmptyEither (Selector.parent (Selector.cls "a" Selector.accept)) = true ∧
    (Selector.parent (Selector.cls "a" Selector.accept)).depth =
      parentHops (Selector.parent (Selector.cls "a" Selector.accept)) + 1 :=
  ⟨rfl, depth_eq_parentHops_succ _ rfl⟩

/-- C7.  `uses_focus_within` recurses through `uses_hover` in every
non-`FocusWithin` case (a copy-paste slip; its doc comment even still says
"uses the hover pseudo-class").  Hence `.foo:focus-within`-shaped chains
with the `FocusWithin` below another wrapper report `false`, and chains
containing `Hover` (and no `FocusWithin` at all) report `true`; the last
conjunct shows such a selector is produced by the parser from
`":hover.foo"`. -/
theorem uses_focus_within_eval :
    (Selector.cls "foo" (Selector.focusWithin Selector.accept)).uses_focus_within = false ∧
    containsFocusWithin (Selector.cls "foo" (Selector.focusWithin Selector.accept)) = true ∧
    (Selector.cls "foo" (Selector.hover Selector.accept)).uses_focus_within = true ∧
    containsFocusWithin (Selector.cls "foo" (Selector.hover Selector.accept)) = false ∧
    parseSelector ":hover.foo" = some (Selector.cls "foo" (Selector.hover Selector.accept)) :=
  ⟨rfl, rfl, rfl, rfl, rfl⟩

/-- C8.  When the entity reached at a `Parent` step has no tree parent
(`parent_query` misses), `selector_match` returns `false` for that branch;
the match function is total, so no error can be raised. -/
theorem parent_missing_match_false (w : MatchWorld) (next : Selector) (e : Nat)
    (h : w.parentOf e = none) :
    w.selector_match (.parent next) e = false := by
  simp [MatchWorld.selector_match, h]

/-- A concrete single-node world: no classes, no parents, no hover, no
focus. -/
def soloWorld : MatchWorld where
  classesOf := fun _ => none
  parentOf := fun _ => none
  childrenOf := fun _ => none
  hoverMap := none
  focusEntity := none
  parent_lt := fun _ _ h => nomatch h

/-- C8 witness. -/
theorem parent_missing_match_false_witness :
    soloWorld.selector_match (.parent .accept) 0 = false :=
  parent_missing_match_false soloWorld .accept 0 rfl

/-- C10.  The empty selector string parses successfully — `simple_selector`
is `(opt(marker), repeat(0.., token))`, which succeeds on empty input — and
yields the bare `Accept`, which `selector_match` accepts for every entity
in every world. -/
theorem empty_selector_matches_everything :
    parseSelector "" = some Selector.accept ∧
    ∀ (w : MatchWorld) (e : Nat), w.selector_match .accept e = true :=
  ⟨rfl, fun _ _ => rfl⟩

/-- C2.  Rect-shorthand coercion and parsing.  The three universal
conjuncts show the coercion table: 2 lengths are (vertical, horizontal),
3 are (top, horizontal, bottom), and the 4-element arm is CSS
(top, right, bottom, left) re-expressed as the rect's (left, right, top,
bottom) fields.  The concrete conjuncts evaluate declarations: one length
broadcasts, two and three work as claimed — but a declaration with four
lengths fails to parse, because `separated(2..4, length, space1)` allows
at most three repetitions (std-range upper bound), leaving `" 4px"` before
the expected `;`; the coercion's own 4-element arm is unreachable. -/
theorem rect_shorthand_eval :
    (∀ w x : Val, coerceRect (.list [.length w, .length x]) =
      .ok (UiRect.axes x w)) ∧
    (∀ w x y : Val, coerceRect (.list [.length w, .length x, .length y]) =
      .ok (UiRect.mk4 x x w y)) ∧
    (∀ w x y z : Val,
      coerceRect (.list [.length w, .length x, .length y, .length z]) =
        .ok (UiRect.mk4 z x w y)) ∧
    parseStyleProp "margin: 5px;" = some (.margin (UiRect.all (.px 5))) ∧
    parseStyleProp "margin: 1px 2px;" =
      some (.margin ⟨.px 2, .px 2, .px 1, .px 1⟩) ∧
    parseStyleProp "margin: 1px 2px 3px;" =
      some (.margin ⟨.px 2, .px 2, .px 1, .px 3⟩) ∧
    parseStyleProp "margin: 1px 2px 3px 4px;" = none ∧
    parseStyleProp "padding: 1px 2px 3px 4px;" = none ∧
    parseStyleProp "border: 1px 2px 3px 4px;" = none := by
  refine ⟨fun _ _ => rfl, fun _ _ _ => rfl, fun _ _ _ _ => rfl, ?_, ?_, ?_, rfl, rfl, rfl⟩
  · rw [show parseStyleProp "margin: 5px;" =
      some (.margin (UiRect.all (.px (1 * (5 : ℚ))))) from rfl]
    norm_num
  · rw [show parseStyleProp "margin: 1px 2px;" =
      some (.margin ⟨.px (1 * (2 : ℚ)), .px (1 * (2 : ℚ)),
        .px (1 * (1 : ℚ)), .px (1 * (1 : ℚ))⟩) from rfl]
    norm_num
  · rw [show parseStyleProp "margin: 1px 2px 3px;" =
      some (.margin ⟨.px (1 * (2 : ℚ)), .px (1 * (2 : ℚ)),
        .px (1 * (1 : ℚ)), .px (1 * (3 : ℚ))⟩) from rfl]
    norm_num

/-- C3.  Hex color literals: 3, 4 and 6 digit forms are accepted with the
claimed channel values (`#fff` is `rgb(1,1,1)`, matching the functional
`rgb(1, 1, 1)`), but an 8-digit `#RRGGBBAA` literal fails to parse: the
hex alternative is `take_while(1..8, is_hex_digit)`, whose std-range upper
bound consumes at most seven digits, after which `Color::hex` rejects the
seven-digit string and no other value alternative accepts `#`. -/
theorem hex_color_eval :
    parseStyleProp "background_color: #fff;" =
      some (.backgroundColor (some (Color.rgb 1 1 1))) ∧
    parseStyleProp "background_color: rgb(1, 1, 1);" =
      some (.backgroundColor (some (Color.rgb 1 1 1))) ∧
    parseStyleProp "background_color: #f00c;" =
      some (.backgroundColor (some (Color.rgba 1 0 0 (204 / 255)))) ∧
    parseStyleProp "background_color: #ff0000;" =
      some (.backgroundColor (some (Color.rgb 1 0 0))) ∧
    parseStyleProp "background_color: #ff0000ff;" = none := by
  refine ⟨?_, ?_, ?_, ?_, rfl⟩
  · rw [show parseStyleProp "background_color: #fff;" =
      some (.backgroundColor (some (Color.rgba (17 * (15 : ℚ) / 255)
        (17 * (15 : ℚ) / 255) (17 * (15 : ℚ) / 255) 1))) from rfl]
    norm_num [Color.rgb]
  · rw [show parseStyleProp "background_color: rgb(1, 1, 1);" =
      some (.backgroundColor (some (Color.rgba (1 * (1 : ℚ)) (1 * (1 : ℚ))
        (1 * (1 : ℚ)) 1))) from rfl]
    norm_num [Color.rgb]
  · rw [show parseStyleProp "background_color: #f00c;" =
      some (.backgroundColor (some (Color.rgba (17 * (15 : ℚ) / 255)
        (17 * (0 : ℚ) / 255) (17 * (0 : ℚ) / 255) (17 * (12 : ℚ) / 255)))) from rfl]
    norm_num
  · rw [show parseStyleProp "background_color: #ff0000;" =
      some (.backgroundColor (some (Color.rgba ((16 * (15 : ℚ) + 15) / 255)
        ((16 * (0 : ℚ) + 0) / 255) ((16 * (0 : ℚ) + 0) / 255) 1))) from rfl]
    norm_num [Color.rgb]

/-- For layout properties the field table always yields a value. -/
theorem layoutField_isSome_of_layout (prop : TransitionProperty) (s : Style)
    (h : isLayoutTP prop = true) : ∃ v, layoutField prop s = some v := by
  cases prop <;> simp_all [isLayoutTP, layoutField]

/-- A style whose fields are all `auto`. -/
def styleAllAuto : Style :=
  ⟨.auto, .auto, .auto, .auto, .auto, .auto, UiRect.all .auto⟩

/-- A width transition state mid-flight: clock 1/2, origin 9, target 5. -/
def c4Anim : AnimatedLayoutProp :=
  ⟨⟨⟨.width, 0, 1, timingLinear⟩, 1 / 2⟩, 9, 5⟩

/-- Previous style: width currently 1 pixel. -/
def c4Prev : Style := { styleAllAuto with width := .px 1 }

/-- Next style: width `auto` — not a pixel value. -/
def c4Next : Style := styleAllAuto

/-- C4 counterexample.  The stored target is 5 (pixels) and the externally
supplied width is `auto` — different from the stored target — yet
`restart_if_changed` leaves the state completely unchanged (the clock stays
at 1/2): a restart happens only when both the previous and next values are
pixel lengths. -/
theorem restart_nonpx_counterexample :
    c4Anim.restart_if_changed .width c4Prev c4Next = some c4Anim ∧
    c4Next.width ≠ Val.px c4Anim.target ∧
    c4Anim.state.clock ≠ 0 :=
  ⟨rfl, fun hc => by simp [c4Next, styleAllAuto] at hc,
   by show (1 / 2 : ℚ) ≠ 0; norm_num⟩

/-- C4 amended.  For a layout property whose previous and next values are
both pixel lengths, `restart_if_changed` restarts exactly when the supplied
pixel target differs from the stored target, setting origin to the
previous (possibly mid-animation) value, target to the next value, and the
clock to 0, and leaving the state unchanged otherwise; when either value
is not a pixel length the state is always left unchanged. -/
theorem restart_if_changed_spec :
    (∀ (prop : TransitionProperty) (prev next : Style) (a : AnimatedLayoutProp)
        (pv nv : ℚ),
        isLayoutTP prop = true →
        layoutField prop prev = some (.px pv) →
        layoutField prop next = some (.px nv) →
        a.restart_if_changed prop prev next =
          some (if a.target ≠ nv then ⟨⟨a.state.transition, 0⟩, pv, nv⟩ else a)) ∧
    (∀ (prop : TransitionProperty) (prev next : Style) (a : AnimatedLayoutProp),
        isLayoutTP prop = true →
        bothPx (layoutField prop prev) (layoutField prop next) = none →
        a.restart_if_changed prop prev next = some a) := by
  constructor
  · intro prop prev next a pv nv hl hp hn
    simp only [AnimatedLayoutProp.restart_if_changed, hp, hn]
    split <;> rfl
  · intro prop prev next a hl hb
    obtain ⟨vp, hp⟩ := layoutField_isSome_of_layout prop prev hl
    obtain ⟨vn, hn⟩ := layoutField_isSome_of_layout prop next hl
    rw [hp, hn] at hb
    simp only [AnimatedLayoutProp.restart_if_changed, hp, hn]
    cases vn <;> cases vp <;> simp_all [bothPx]

/-- A width transition whose stored target 3 differs from the supplied 5. -/
def c4wAnim : AnimatedLayoutProp :=
  ⟨⟨⟨.width, 0, 1, timingLinear⟩, 1 / 2⟩, 9, 3⟩

/-- Next style for the witness: width 5 pixels. -/
def c4wNext : Style := { styleAllAuto with width := .px 5 }

/-- C4 amended, witness. -/
theorem restart_if_changed_spec_witness :
    c4wAnim.restart_if_changed .width c4Prev c4wNext =
      some (if c4wAnim.target ≠ 5 then ⟨⟨c4wAnim.state.transition, 0⟩, 1, 5⟩
            else c4wAnim) ∧
    c4Anim.restart_if_changed .width c4Prev c4Next = some c4Anim :=
  ⟨restart_if_changed_spec.1 .width c4Prev c4wNext c4wAnim 1 5 rfl rfl rfl,
   restart_if_changed_spec.2 .width c4Prev c4Next c4Anim rfl rfl⟩

/-- The example transition of the claim: width, duration 1, linear. -/
def sampleTransition : Transition := ⟨.width, 0, 1, timingLinear⟩

/-- The example animation state at a given clock: origin 0, target 100. -/
def animAt (c : ℚ) : AnimatedLayoutProp := ⟨⟨sampleTransition, c⟩, 0, 100⟩

/-- A style whose width is the given pixel count. -/
def styleW (v : ℚ) : Style := { styleAllAuto with width := .px v }

/-- C5.  `advance` clamps `clock + delta/duration` into [0,1] when the
duration is positive and snaps the clock to 1 when the duration is zero;
with duration 1, linear timing, origin 0 and target 100, the width is 50
after `advance(0.5)` (via `update`), 100 after another `advance(0.5)`,
and stays 100 under any further forward advance (the clock is clamped at
1 and the eased progress stops changing, so no further write happens). -/
theorem transition_advance_spec :
    (∀ (s : TransitionState) (delta : ℚ), 0 < s.transition.duration →
        (s.advance delta).clock =
          max 0 (min (s.clock + delta / s.transition.duration) 1)) ∧
    (∀ (s : TransitionState) (delta : ℚ), s.transition.duration = 0 →
        (s.advance delta).clock = 1) ∧
    (animAt 0).update .width styleAllAuto (1 / 2) false =
      some (animAt (1 / 2), styleW 50) ∧
    (animAt (1 / 2)).update .width (styleW 50) (1 / 2) false =
      some (animAt 1, styleW 100) ∧
    (∀ delta : ℚ, 0 ≤ delta →
      (animAt 1).update .width (styleW 100) delta false =
        some (animAt 1, styleW 100)) := by
  refine ⟨?_, ?_, ?_, ?_, ?_⟩
  · intro s delta h
    simp only [TransitionState.advance, if_pos h]
    unfold rustClamp
    split_ifs with h1 h2
    · rw [min_eq_left (by linarith), max_eq_left (by linarith)]
    · rw [min_eq_right (by linarith), max_eq_right (by linarith)]
    · rw [min_eq_left (by linarith), max_eq_right (by linarith)]
  · intro s delta h
    simp [TransitionState.advance, h]
  · have hc : rustClamp ((0 : ℚ) + 1 / 2 / 1) 0 1 = 1 / 2 := by
      unfold rustClamp
      norm_num
    simp only [AnimatedLayoutProp.update, TransitionState.advance, animAt,
      sampleTransition, timingLinear, styleAllAuto, styleW, gt_iff_lt]
    rw [if_pos (by norm_num : (0 : ℚ) < 1), hc]
    norm_num [timingLinear]
  · have hc : rustClamp ((1 : ℚ) / 2 + 1 / 2 / 1) 0 1 = 1 := by
      unfold rustClamp
      norm_num
    simp only [AnimatedLayoutProp.update, TransitionState.advance, animAt,
      sampleTransition, timingLinear, styleAllAuto, styleW, gt_iff_lt]
    rw [if_pos (by norm_num : (0 : ℚ) < 1), hc]
    norm_num [timingLinear]
  · intro delta h
    have hclock : rustClamp ((1 : ℚ) + delta / 1) 0 1 = 1 := by
      unfold rustClamp
      rw [div_one]
      split_ifs with h1 h2 <;> linarith
    simp only [AnimatedLayoutProp.update, TransitionState.advance, animAt,
      sampleTransition, timingLinear, gt_iff_lt]
    rw [if_pos (by norm_num : (0 : ℚ) < 1), hclock]
    norm_num [timingLinear, styleW, styleAllAuto]

/-- C5 witness. -/
theorem transition_advance_spec_witness :
    (((animAt 0).state.advance 1).clock =
      max 0 (min ((animAt 0).state.clock + 1 / (animAt 0).state.transition.duration) 1)) ∧
    (animAt 1).update .width (styleW 100) 0 false = some (animAt 1, styleW 100) :=
  ⟨transition_advance_spec.1 (animAt 0).state 1 (by decide),
   transition_advance_spec.2.2.2.2 0 (by decide)⟩

/-- A transform transition state at clock 0 with duration 1. -/
def c9Anim : AnimatedLayoutProp :=
  ⟨⟨⟨.transform, 0, 1, timingLinear⟩, 0⟩, 0, 0⟩

/-- C9 counterexample.  `update` called with `Transform` does NOT panic
when no write is attempted: with delta 0 and `force == false` the eased
progress equals the pre-advance clock, the write branch (which contains
the `panic!`) is skipped, and the call returns normally. -/
theorem update_nonlayout_no_panic :
    c9Anim.update .transform styleAllAuto 0 false = some (c9Anim, styleAllAuto) := by
  have hc : rustClamp ((0 : ℚ) + 0 / 1) 0 1 = 0 := by
    unfold rustClamp
    norm_num
  simp only [AnimatedLayoutProp.update, TransitionState.advance, c9Anim,
    timingLinear, gt_iff_lt]
  rw [if_pos (by norm_num : (0 : ℚ) < 1), hc]
  norm_num [timingLinear]

/-- C9 amended.  `restart_if_changed` with `Transform`, `BackgroundColor`
or `BorderColor` always panics; `update` with such a property panics
exactly when it attempts a write — when `force` is set or the eased
post-advance progress differs from the pre-advance clock.  Under the
precondition that the property is one of the ten layout properties, the
panic arms are unreachable and both functions complete normally on all
inputs. -/
theorem layout_transition_panic_spec :
    (∀ (a : AnimatedLayoutProp) (prop : TransitionProperty) (prev next : Style),
        isLayoutTP prop = false →
        a.restart_if_changed prop prev next = none) ∧
    (∀ (a : AnimatedLayoutProp) (prop : TransitionProperty) (style : Style)
        (delta : ℚ) (force : Bool),
        isLayoutTP prop = false →
        (a.update prop style delta force = none ↔
          (force = true ∨ (a.state.advance delta).t ≠ a.state.clock))) ∧
    (∀ (a : AnimatedLayoutProp) (prop : TransitionProperty) (style : Style)
        (delta : ℚ) (force : Bool),
        isLayoutTP prop = true →
        (a.update prop style delta force).isSome = true) ∧
    (∀ (a : AnimatedLayoutProp) (prop : TransitionProperty) (prev next : Style),
        isLayoutTP prop = true →
        (a.restart_if_changed prop prev next).isSome = true) := by
  refine ⟨?_, ?_, ?_, ?_⟩
  · intro a prop prev next hl
    cases prop <;> simp_all [isLayoutTP, AnimatedLayoutProp.restart_if_changed,
      layoutField]
  · intro a prop style delta force hl
    cases prop <;> simp_all [isLayoutTP] <;>
      · simp only [AnimatedLayoutProp.update, TransitionState.t]
        split_ifs with hc
        · simp only [true_iff]
          rcases Bool.or_eq_true_iff.mp hc with h | h
          · exact Or.inr (of_decide_eq_true h)
          · exact Or.inl h
        · simp only [false_iff]
          intro hcon
          apply hc
          rcases hcon with h | h
          · exact Bool.or_eq_true_iff.mpr (Or.inr h)
          · exact Bool.or_eq_true_iff.mpr (Or.inl (decide_eq_true h))
  · intro a prop style delta force hl
    cases prop <;> simp_all [isLayoutTP] <;>
      · simp only [AnimatedLayoutProp.update]
        split <;> simp
  · intro a prop prev next hl
    obtain ⟨vp, hp⟩ := layoutField_isSome_of_layout prop prev hl
    obtain ⟨vn, hn⟩ := layoutField_isSome_of_layout prop next hl
    simp only [AnimatedLayoutProp.restart_if_changed, hp, hn]
    cases vn <;> cases vp <;> simp <;> split <;> simp

/-- C9 amended, witness. -/
theorem layout_transition_panic_spec_witness :
    c9Anim.restart_if_changed .backgroundColor styleAllAuto styleAllAuto = none ∧
    (c9Anim.update .transform styleAllAuto 0 true = none ↔
      (true = true ∨ (c9Anim.state.advance 0).t ≠ c9Anim.state.clock)) ∧
    (c9Anim.update .width styleAllAuto 0 false).isSome = true ∧
    (c9Anim.restart_if_changed .width styleAllAuto styleAllAuto).isSome = true :=
  ⟨layout_transition_panic_spec.1 c9Anim .backgroundColor styleAllAuto styleAllAuto rfl,
   layout_transition_panic_spec.2.1 c9Anim .transform styleAllAuto 0 true rfl,
   layout_transition_panic_spec.2.2.1 c9Anim .width styleAllAuto 0 false rfl,
   layout_transition_panic_spec.2.2.2 c9Anim .width styleAllAuto styleAllAuto rfl⟩

end Peacock
